import Mathlib

/-!
Shallow embedding of the 3d-renderer-rust sources (camera, application loop,
renderer matrix setup, skybox builder, shader builder, model draw path) and
proofs of the specification claims about them.

Machine `f32` arithmetic is idealised as real arithmetic; GPU and filesystem
effects are modelled by explicit environments and event traces.
-/

namespace Renderer3D

/-! ## Skybox builder (src/skybox.rs) -/

/-- Decoded image as produced by the image-decoding collaborator: the skybox
code only observes its width and height. -/
structure Image where
  width : Nat
  height : Nat
deriving DecidableEq

/-- Value of `glow::TEXTURE_CUBE_MAP_POSITIVE_X` (0x8515). -/
def TEXTURE_CUBE_MAP_POSITIVE_X : Nat := 34069

/-- One `tex_image_2d` upload: the cube-map target slot it addresses and the
image uploaded there. Models `create_texture` in src/skybox.rs. -/
structure Upload where
  target : Nat
  img : Image
deriving DecidableEq

/-- Models `create_texture(gl, i, img)`: upload `img` to cube-map target
`TEXTURE_CUBE_MAP_POSITIVE_X + i`. -/
def create_texture (i : Nat) (img : Image) : Upload :=
  { target := TEXTURE_CUBE_MAP_POSITIVE_X + i, img := img }

/-- The six face paths of `SkyboxFileBuilder` in src/skybox.rs. -/
structure SkyboxFileBuilder where
  right_face_path : String
  left_face_path : String
  top_face_path : String
  bottom_face_path : String
  front_face_path : String
  back_face_path : String
deriving DecidableEq

/-- The GPU-side result of a successful skybox build that the claims observe:
the sequence of cube-map face uploads that were performed. -/
structure SkyboxTexture where
  uploads : List Upload
deriving DecidableEq

/-- Loop body of `read_images_from_files`: decode each face path in order,
aborting with the decorated error on the first decode failure, and record the
`create_texture` upload for face index `i`.  `decode` models `image::open`. -/
def uploadFaces (decode : String → Except String Image) :
    Nat → List String → Except String (List Upload)
  | _, [] => Except.ok []
  | i, p :: rest =>
    match decode p with
    | Except.error e =>
        Except.error ("unable to load skybox texture from " ++ p ++ ": " ++ e)
    | Except.ok img =>
        match uploadFaces decode (i + 1) rest with
        | Except.error e => Except.error e
        | Except.ok uploads => Except.ok (create_texture i img :: uploads)

/-- Face iteration order fixed by `read_images_from_files`:
right, left, top, bottom, front, back. -/
def texture_face_paths (b : SkyboxFileBuilder) : List String :=
  [b.right_face_path, b.left_face_path, b.top_face_path,
   b.bottom_face_path, b.front_face_path, b.back_face_path]

/-- Models `SkyboxFileBuilder::read_images_from_files`. -/
def read_images_from_files (decode : String → Except String Image)
    (b : SkyboxFileBuilder) : Except String (List Upload) :=
  uploadFaces decode 0 (texture_face_paths b)

/-- Models `SkyboxFileBuilder::build`: decode and upload the six faces, mapping
any failure into the fatal construction error; on success the skybox value
holds exactly the performed uploads. -/
def SkyboxFileBuilder.build (decode : String → Except String Image)
    (b : SkyboxFileBuilder) : Except String SkyboxTexture :=
  match read_images_from_files decode b with
  | Except.error e => Except.error ("unable to create skybox texture: " ++ e)
  | Except.ok uploads => Except.ok { uploads := uploads }

/-! ## Shader builder (src/shader.rs) -/

/-- The two shader stages compiled by `Shader::new`. -/
inductive ShaderStage where
  | vertex
  | fragment
deriving DecidableEq

/-- GL-observable events emitted during shader construction, used to state the
compile-then-link-then-delete ordering. -/
inductive GLEvent where
  | compileShader (stage : ShaderStage)
  | linkProgram
  | deleteShader (stage : ShaderStage)
deriving DecidableEq

/-- Environment abstracting the filesystem and the GL driver outcomes seen by
`Shader::new`: source-file reads, per-stage compile status and info log, link
status and info log. -/
structure GLShaderEnv where
  readSource : String → Except String String
  compileStatus : ShaderStage → Bool
  compileLog : ShaderStage → String
  linkStatus : Bool
  linkLog : String

/-- Models `compile` in src/shader.rs: read the GLSL file, create and compile
the stage shader, and consult `COMPILE_STATUS`; on failure the returned error
is the fixed text produced by the source (the info log is only written to the
error stream, not returned). Also returns the emitted GL events. -/
def compile (env : GLShaderEnv) (shader_path : String) (stage : ShaderStage) :
    Except String Unit × List GLEvent :=
  match env.readSource shader_path with
  | Except.error e => (Except.error ("unable to read GLSL file: " ++ e), [])
  | Except.ok _ =>
    if env.compileStatus stage then
      (Except.ok (), [GLEvent.compileShader stage])
    else
      (Except.error "failed to compile GLSL code", [GLEvent.compileShader stage])

/-- A constructed shader program: program handle plus the initially empty
subroutine-index cache. -/
structure Shader where
  shader_program : Nat
  subroutine_indices : List Nat
deriving DecidableEq

/-- Models `Shader::new`: compile the vertex shader (decorating a failure with
the stage and path), compile the fragment shader likewise, link the program,
delete both intermediate shaders, then consult `LINK_STATUS`. Returns the
construction result together with the emitted GL event trace. -/
def Shader.new (env : GLShaderEnv) (vertex_shader_path fragment_shader_path : String) :
    Except String Shader × List GLEvent :=
  match compile env vertex_shader_path ShaderStage.vertex with
  | (Except.error e, tr) =>
      (Except.error ("failed to compile vertex shader " ++ vertex_shader_path ++ ": " ++ e), tr)
  | (Except.ok _, tr1) =>
    match compile env fragment_shader_path ShaderStage.fragment with
    | (Except.error e, tr2) =>
        (Except.error ("failed to compile fragment shader " ++ fragment_shader_path ++ ": " ++ e),
         tr1 ++ tr2)
    | (Except.ok _, tr2) =>
      let tr := tr1 ++ tr2 ++
        [GLEvent.linkProgram,
         GLEvent.deleteShader ShaderStage.vertex,
         GLEvent.deleteShader ShaderStage.fragment]
      if env.linkStatus then
        (Except.ok { shader_program := 1, subroutine_indices := [] }, tr)
      else
        (Except.error "failed to link shader program", tr)

/-! ## Model draw path (src/renderer.rs, `Renderer::draw_model`) -/

/-- The two ways `Renderer::draw_model` can panic before issuing GPU work. -/
inductive PanicKind where
  | assertionFailed
  | indexOutOfBounds
deriving DecidableEq

/-- Models the entry of `Renderer::draw_model`: `assert_eq!(models.len(), 3)`
followed by the unchecked indexing `&models[draw_props.selected_model_index]`.
Returns the selected model handle, or the panic that occurs. -/
def draw_model (models : List Nat) (selected_model_index : Nat) : Except PanicKind Nat :=
  if models.length = 3 then
    match models.get? selected_model_index with
    | some m => Except.ok m
    | none => Except.error PanicKind.indexOutOfBounds
  else
    Except.error PanicKind.assertionFailed

/-! ## Camera (src/camera.rs), idealising `f32` as `ℝ` -/

noncomputable section

/-- 3-component vector over the idealised reals (cgmath `Vector3<f32>`). -/
@[ext]
structure Vec3 where
  x : ℝ
  y : ℝ
  z : ℝ

/-- 2-component vector (cgmath `Vector2<f32>`); for the camera, `x` is yaw and
`y` is pitch, both in degrees. -/
@[ext]
structure Vec2 where
  x : ℝ
  y : ℝ

instance : Add Vec3 := ⟨fun a b => ⟨a.x + b.x, a.y + b.y, a.z + b.z⟩⟩

instance : Sub Vec3 := ⟨fun a b => ⟨a.x - b.x, a.y - b.y, a.z - b.z⟩⟩

instance : SMul ℝ Vec3 := ⟨fun k v => ⟨k * v.x, k * v.y, k * v.z⟩⟩

theorem Vec3.add_def (a b : Vec3) : a + b = ⟨a.x + b.x, a.y + b.y, a.z + b.z⟩ := rfl

theorem Vec3.sub_def (a b : Vec3) : a - b = ⟨a.x - b.x, a.y - b.y, a.z - b.z⟩ := rfl

theorem Vec3.smul_def (k : ℝ) (v : Vec3) : k • v = ⟨k * v.x, k * v.y, k * v.z⟩ := rfl

/-- cgmath cross product. -/
def Vec3.cross (a b : Vec3) : Vec3 :=
  ⟨a.y * b.z - a.z * b.y, a.z * b.x - a.x * b.z, a.x * b.y - a.y * b.x⟩

/-- cgmath `magnitude`: square root of the dot product with itself. -/
def Vec3.magnitude (v : Vec3) : ℝ :=
  Real.sqrt (v.x * v.x + v.y * v.y + v.z * v.z)

/-- cgmath `normalize`: scale by the reciprocal of the magnitude. -/
def Vec3.normalize (v : Vec3) : Vec3 :=
  (1 / v.magnitude) • v

/-- `MOVEMENT_SPEED` constant from src/camera.rs. -/
def MOVEMENT_SPEED : ℝ := 2.5

/-- `LOOK_SENSITIVITY` constant from src/camera.rs. -/
def LOOK_SENSITIVITY : ℝ := 0.1

/-- `UP_VECTOR` constant from src/camera.rs: world up (0, 1, 0). -/
def UP_VECTOR : Vec3 := ⟨0, 1, 0⟩

/-- Degrees to radians, as Rust `f32::to_radians`. -/
def toRadians (degrees : ℝ) : ℝ := degrees * (Real.pi / 180)

/-- The camera state of src/camera.rs: position, rotation as (yaw, pitch) in
degrees, and the stored direction vector. -/
@[ext]
structure Camera where
  position : Vec3
  rotation : Vec2
  direction : Vec3

/-- Spherical-to-Cartesian conversion of a (yaw, pitch) rotation, as written in
`Camera::update_direction`. -/
def sphericalDirection (rotation : Vec2) : Vec3 :=
  ⟨Real.cos (toRadians rotation.x) * Real.cos (toRadians rotation.y),
   Real.sin (toRadians rotation.y),
   Real.sin (toRadians rotation.x) * Real.cos (toRadians rotation.y)⟩

/-- Models `Camera::update_direction`: recompute the stored direction from the
current rotation and normalize it. -/
def Camera.update_direction (c : Camera) : Camera :=
  { c with direction := (sphericalDirection c.rotation).normalize }

/-- Models `Camera::new`: store position and rotation, then immediately derive
the direction (avoiding a stale zero direction before the first mouselook). -/
def Camera.new (position : Vec3) (rotation : Vec2) : Camera :=
  Camera.update_direction { position := position, rotation := rotation, direction := ⟨0, 0, 0⟩ }

/-- Models `Camera::move_forward`. -/
def Camera.move_forward (c : Camera) (delta_time : ℝ) : Camera :=
  { c with position := c.position + (MOVEMENT_SPEED * delta_time) • c.direction }

/-- Models `Camera::move_backward`. -/
def Camera.move_backward (c : Camera) (delta_time : ℝ) : Camera :=
  { c with position := c.position - (MOVEMENT_SPEED * delta_time) • c.direction }

/-- Models `Camera::strafe_left`: translate along the normalized cross product
of direction and world up, against the right vector. -/
def Camera.strafe_left (c : Camera) (delta_time : ℝ) : Camera :=
  { c with position :=
      c.position - (MOVEMENT_SPEED * delta_time) • (c.direction.cross UP_VECTOR).normalize }

/-- Models `Camera::strafe_right`. -/
def Camera.strafe_right (c : Camera) (delta_time : ℝ) : Camera :=
  { c with position :=
      c.position + (MOVEMENT_SPEED * delta_time) • (c.direction.cross UP_VECTOR).normalize }

/-- Models `Camera::ascend`. -/
def Camera.ascend (c : Camera) (delta_time : ℝ) : Camera :=
  { c with position := c.position + (MOVEMENT_SPEED * delta_time) • UP_VECTOR }

/-- Models `Camera::descend`. -/
def Camera.descend (c : Camera) (delta_time : ℝ) : Camera :=
  { c with position := c.position - (MOVEMENT_SPEED * delta_time) • UP_VECTOR }

/-- Models `wrap_yaw` in src/camera.rs: values above 359 reset to 0, values
below 0 reset to 359, everything else passes through. -/
def wrap_yaw (yaw : ℝ) : ℝ :=
  if 359 < yaw then 0
  else if yaw < 0 then 359
  else yaw

/-- Rust `f32::clamp(lo, hi)`. -/
def rustClamp (x lo hi : ℝ) : ℝ :=
  if x < lo then lo
  else if hi < x then hi
  else x

/-- Models `Camera::look`: accumulate and wrap yaw, accumulate and clamp pitch,
then recompute the direction. -/
def Camera.look (c : Camera) (x_offset y_offset : ℝ) : Camera :=
  Camera.update_direction
    { c with rotation :=
        ⟨wrap_yaw (c.rotation.x + x_offset * LOOK_SENSITIVITY),
         rustClamp (c.rotation.y + y_offset * LOOK_SENSITIVITY) (-89) 89⟩ }

/-- A sequence of `look(x, 0)` calls folded over a camera. -/
def lookFoldX (c : Camera) (offsets : List ℝ) : Camera :=
  offsets.foldl (fun cam x => cam.look x 0) c

/-- A sequence of `look(0, y)` calls folded over a camera. -/
def lookFoldY (c : Camera) (offsets : List ℝ) : Camera :=
  offsets.foldl (fun cam y => cam.look 0 y) c

/-! ## Application loop (src/app.rs) -/

/-- `MAX_LOGIC_UPDATE_PER_SECOND` from src/app.rs. -/
def MAX_LOGIC_UPDATE_PER_SECOND : ℝ := 60

/-- `FIXED_UPDATE_TIMESTEP` from src/app.rs: 1/60 of a second. -/
def FIXED_UPDATE_TIMESTEP : ℝ := 1 / MAX_LOGIC_UPDATE_PER_SECOND

/-- The persistent pressed/released key state (`InputState` in src/app.rs),
one flag per movement input. -/
structure InputState where
  moveForward : Bool
  moveBackward : Bool
  strafeLeft : Bool
  strafeRight : Bool
  ascend : Bool
  descend : Bool

/-- Models the camera part of `App::update`: apply each held movement key as
one fixed-timestep camera movement, in the order written in the source. -/
def App.update (input : InputState) (c : Camera) : Camera :=
  let c := if input.moveForward then c.move_forward FIXED_UPDATE_TIMESTEP else c
  let c := if input.moveBackward then c.move_backward FIXED_UPDATE_TIMESTEP else c
  let c := if input.strafeLeft then c.strafe_left FIXED_UPDATE_TIMESTEP else c
  let c := if input.strafeRight then c.strafe_right FIXED_UPDATE_TIMESTEP else c
  let c := if input.ascend then c.ascend FIXED_UPDATE_TIMESTEP else c
  let c := if input.descend then c.descend FIXED_UPDATE_TIMESTEP else c
  c

/-- `n` consecutive fixed logic update steps. -/
def App.updateIter (input : InputState) : Nat → Camera → Camera
  | 0, c => c
  | n + 1, c => App.updateIter input n (App.update input c)

/-- Big-step semantics of the lag-draining `while` loop in `App::run`:
`FixedUpdateLoop input lag c n lag' c'` holds when, starting from accumulator
`lag` and camera `c`, the loop `while lag >= FIXED_UPDATE_TIMESTEP` runs
exactly `n` iterations — each one logic update paired with one subtraction of
the timestep — and exits with accumulator `lag'` and camera `c'`. -/
inductive FixedUpdateLoop (input : InputState) : ℝ → Camera → Nat → ℝ → Camera → Prop where
  | done : ∀ lag c, lag < FIXED_UPDATE_TIMESTEP → FixedUpdateLoop input lag c 0 lag c
  | step : ∀ lag c n lag' c', FIXED_UPDATE_TIMESTEP ≤ lag →
      FixedUpdateLoop input (lag - FIXED_UPDATE_TIMESTEP) (App.update input c) n lag' c' →
      FixedUpdateLoop input lag c (n + 1) lag' c'

/-- Key state with only the forward-movement key held. -/
def forwardOnlyInput : InputState :=
  { moveForward := true, moveBackward := false, strafeLeft := false,
    strafeRight := false, ascend := false, descend := false }

/-! ## Model matrix (src/renderer.rs), via cgmath quaternions -/

/-- 4-component vector (cgmath `Vector4<f32>`). -/
@[ext]
structure Vec4 where
  x : ℝ
  y : ℝ
  z : ℝ
  w : ℝ

/-- Column-major 4×4 matrix (cgmath `Matrix4<f32>`): four column vectors. -/
@[ext]
structure Mat4 where
  x : Vec4
  y : Vec4
  z : Vec4
  w : Vec4

/-- The identity 4×4 matrix. -/
def Mat4.identity : Mat4 :=
  ⟨⟨1, 0, 0, 0⟩, ⟨0, 1, 0, 0⟩, ⟨0, 0, 1, 0⟩, ⟨0, 0, 0, 1⟩⟩

/-- cgmath `Quaternion<f32>`: scalar part `s` and vector part `v`. -/
structure Quat where
  s : ℝ
  v : Vec3

/-- cgmath `Quaternion::from(Euler { x, y, z })` for angles given in degrees
(`Deg` converts to radians first): built from the half-angle sines and
cosines of the three axis rotations. -/
def quatFromEulerDeg (rx ry rz : ℝ) : Quat :=
  let sx := Real.sin (toRadians rx * 0.5)
  let cx := Real.cos (toRadians rx * 0.5)
  let sy := Real.sin (toRadians ry * 0.5)
  let cy := Real.cos (toRadians ry * 0.5)
  let sz := Real.sin (toRadians rz * 0.5)
  let cz := Real.cos (toRadians rz * 0.5)
  { s := -sx * sy * sz + cx * cy * cz,
    v := ⟨sx * cy * cz + sy * sz * cx,
          -sx * sz * cy + sy * cx * cz,
          sx * sy * cz + sz * cx * cy⟩ }

/-- cgmath `Matrix4::from(Quaternion)`. -/
def mat4FromQuat (q : Quat) : Mat4 :=
  let x2 := q.v.x + q.v.x
  let y2 := q.v.y + q.v.y
  let z2 := q.v.z + q.v.z
  let xx2 := x2 * q.v.x
  let xy2 := x2 * q.v.y
  let xz2 := x2 * q.v.z
  let yy2 := y2 * q.v.y
  let yz2 := y2 * q.v.z
  let zz2 := z2 * q.v.z
  let sy2 := y2 * q.s
  let sz2 := z2 * q.s
  let sx2 := x2 * q.s
  { x := ⟨1 - yy2 - zz2, xy2 + sz2, xz2 - sy2, 0⟩,
    y := ⟨xy2 - sz2, 1 - xx2 - zz2, yz2 + sx2, 0⟩,
    z := ⟨xz2 + sy2, yz2 - sx2, 1 - xx2 - yy2, 0⟩,
    w := ⟨0, 0, 0, 1⟩ }

/-- Models `calculate_model_matrix` in src/renderer.rs: convert the per-axis
Euler rotation (degrees) to a quaternion, then to a matrix. The three array
entries `rotation[0..2]` are passed as the three components. -/
def calculate_model_matrix (rotation0 rotation1 rotation2 : ℝ) : Mat4 :=
  mat4FromQuat (quatFromEulerDeg rotation0 rotation1 rotation2)

end

/-! ## Theorems -/

@[simp]
theorem exceptOk_isOk {ε α : Type} (x : α) : (Except.ok x : Except ε α).isOk = true := rfl

@[simp]
theorem exceptError_isOk {ε α : Type} (e : ε) : (Except.error e : Except ε α).isOk = false := rfl

/-- C10: the model draw path asserts the model collection has length exactly 3
and then indexes it with the selected index without a bounds check: a length-3
collection with a selected index below 3 never panics, and any other collection
length panics in the assertion regardless of the selected index. -/
theorem draw_model_assertion (models : List Nat) (selected_model_index : Nat) :
    (models.length = 3 → selected_model_index < 3 →
      (draw_model models selected_model_index).isOk = true)
    ∧ (models.length ≠ 3 →
        draw_model models selected_model_index = Except.error PanicKind.assertionFailed) := by
  constructor
  · intro h3 hidx
    have hlt : selected_model_index < models.length := by omega
    unfold draw_model
    rw [if_pos h3, List.get?_eq_get hlt]
    rfl
  · intro h3
    unfold draw_model
    rw [if_neg h3]

theorem draw_model_assertion_witness :
    (draw_model [10, 20, 30] 2).isOk = true
    ∧ draw_model [10, 20] 0 = Except.error PanicKind.assertionFailed :=
  ⟨(draw_model_assertion [10, 20, 30] 2).1 rfl (by decide),
   (draw_model_assertion [10, 20] 0).2 (by decide)⟩

/-- Builder used for the concrete skybox scenarios: the six face paths of the
shipped asset set. -/
def demoBuilder : SkyboxFileBuilder :=
  { right_face_path := "right.jpg", left_face_path := "left.jpg",
    top_face_path := "top.jpg", bottom_face_path := "bottom.jpg",
    front_face_path := "front.jpg", back_face_path := "back.jpg" }

/-- Decoder where every face decodes successfully but the right face has
different dimensions from the other five. -/
def mismatchDecode : String → Except String Image := fun p =>
  if p = "right.jpg" then Except.ok { width := 1, height := 1 }
  else Except.ok { width := 2, height := 2 }

/-- C8 counterexample: all six faces decode successfully, the right face is
1×1 while the others are 2×2, yet `SkyboxFileBuilder::build` succeeds — no
dimension-mismatch check exists, so a mismatch is not fatal. -/
theorem skybox_dimension_mismatch_not_fatal :
    mismatchDecode demoBuilder.right_face_path = Except.ok { width := 1, height := 1 }
    ∧ mismatchDecode demoBuilder.left_face_path = Except.ok { width := 2, height := 2 }
    ∧ (1 : Nat) ≠ 2
    ∧ (SkyboxFileBuilder.build mismatchDecode demoBuilder).isOk = true := by
  refine ⟨rfl, rfl, by decide, rfl⟩

/-- C8 amended: skybox construction fails (fatally, producing no skybox value)
exactly when one of the six face images fails to decode — decoded dimensions
are never compared — and on success the six faces are uploaded in the fixed
order right, left, top, bottom, front, back to the consecutive cube-map target
slots `TEXTURE_CUBE_MAP_POSITIVE_X + 0 .. + 5`. -/
theorem skybox_build_faces (decode : String → Except String Image) (b : SkyboxFileBuilder) :
    ((SkyboxFileBuilder.build decode b).isOk = true ↔
      ((decode b.right_face_path).isOk = true ∧ (decode b.left_face_path).isOk = true ∧
       (decode b.top_face_path).isOk = true ∧ (decode b.bottom_face_path).isOk = true ∧
       (decode b.front_face_path).isOk = true ∧ (decode b.back_face_path).isOk = true))
    ∧ (∀ r l t bo f ba : Image,
        decode b.right_face_path = Except.ok r →
        decode b.left_face_path = Except.ok l →
        decode b.top_face_path = Except.ok t →
        decode b.bottom_face_path = Except.ok bo →
        decode b.front_face_path = Except.ok f →
        decode b.back_face_path = Except.ok ba →
        SkyboxFileBuilder.build decode b =
          Except.ok { uploads :=
            [create_texture 0 r, create_texture 1 l, create_texture 2 t,
             create_texture 3 bo, create_texture 4 f, create_texture 5 ba] }) := by
  constructor
  · cases hr : decode b.right_face_path with
    | error e =>
      simp [SkyboxFileBuilder.build, read_images_from_files, texture_face_paths, uploadFaces, hr]
    | ok r =>
      cases hl : decode b.left_face_path with
      | error e =>
        simp [SkyboxFileBuilder.build, read_images_from_files, texture_face_paths, uploadFaces,
          hr, hl]
      | ok l =>
        cases ht : decode b.top_face_path with
        | error e =>
          simp [SkyboxFileBuilder.build, read_images_from_files, texture_face_paths, uploadFaces,
            hr, hl, ht]
        | ok t =>
          cases hbo : decode b.bottom_face_path with
          | error e =>
            simp [SkyboxFileBuilder.build, read_images_from_files, texture_face_paths,
              uploadFaces, hr, hl, ht, hbo]
          | ok bo =>
            cases hf : decode b.front_face_path with
            | error e =>
              simp [SkyboxFileBuilder.build, read_images_from_files, texture_face_paths,
                uploadFaces, hr, hl, ht, hbo, hf]
            | ok f =>
              cases hba : decode b.back_face_path with
              | error e =>
                simp [SkyboxFileBuilder.build, read_images_from_files, texture_face_paths,
                  uploadFaces, hr, hl, ht, hbo, hf, hba]
              | ok ba =>
                simp [SkyboxFileBuilder.build, read_images_from_files, texture_face_paths,
                  uploadFaces, hr, hl, ht, hbo, hf, hba]
  · intro r l t bo f ba hr hl ht hbo hf hba
    simp [SkyboxFileBuilder.build, read_images_from_files, texture_face_paths, uploadFaces,
      hr, hl, ht, hbo, hf, hba]

/-- Decoder that succeeds on every face with identical 2×2 images. -/
def okDecode : String → Except String Image := fun _ =>
  Except.ok { width := 2, height := 2 }

theorem skybox_build_faces_witness :
    SkyboxFileBuilder.build okDecode demoBuilder =
      Except.ok { uploads :=
        [create_texture 0 { width := 2, height := 2 },
         create_texture 1 { width := 2, height := 2 },
         create_texture 2 { width := 2, height := 2 },
         create_texture 3 { width := 2, height := 2 },
         create_texture 4 { width := 2, height := 2 },
         create_texture 5 { width := 2, height := 2 }] } :=
  (skybox_build_faces okDecode demoBuilder).2
    { width := 2, height := 2 } { width := 2, height := 2 } { width := 2, height := 2 }
    { width := 2, height := 2 } { width := 2, height := 2 } { width := 2, height := 2 }
    rfl rfl rfl rfl rfl rfl

/-- Environment where the vertex shader fails to compile and the driver
supplies a non-empty diagnostic log. -/
def vertexFailEnvA : GLShaderEnv :=
  { readSource := fun _ => Except.ok "#version 430 core",
    compileStatus := fun _ => false,
    compileLog := fun _ => "0:1: syntax error",
    linkStatus := true,
    linkLog := "" }

/-- Same failing environment but with an empty diagnostic log. -/
def vertexFailEnvB : GLShaderEnv :=
  { vertexFailEnvA with compileLog := fun _ => "" }

/-- C9 counterexample: two environments whose GPU-provided compile logs differ
produce the identical fixed construction error text — the returned error does
not report the GPU-provided diagnostic log (which the code only prints to the
error stream). -/
theorem shader_error_omits_log :
    (Shader.new vertexFailEnvA "model.vert" "model.frag").1
      = Except.error "failed to compile vertex shader model.vert: failed to compile GLSL code"
    ∧ (Shader.new vertexFailEnvB "model.vert" "model.frag").1
      = Except.error "failed to compile vertex shader model.vert: failed to compile GLSL code"
    ∧ vertexFailEnvA.compileLog ShaderStage.vertex ≠ vertexFailEnvB.compileLog ShaderStage.vertex :=
  ⟨rfl, rfl, by decide⟩

/-- C9 amended: shader construction compiles the vertex shader, compiles the
fragment shader, links, then deletes both intermediate shaders (visible in the
GL event trace); a compile or link failure makes construction return a fatal
error naming the failed stage (and shader path), whose text is fixed and does
not include the GPU-provided diagnostic log. -/
theorem shader_new_sequence (env : GLShaderEnv) (v f sv sf : String)
    (hv : env.readSource v = Except.ok sv) (hf : env.readSource f = Except.ok sf) :
    (env.compileStatus ShaderStage.vertex = true →
      env.compileStatus ShaderStage.fragment = true →
      env.linkStatus = true →
      Shader.new env v f =
        (Except.ok { shader_program := 1, subroutine_indices := [] },
         [GLEvent.compileShader ShaderStage.vertex, GLEvent.compileShader ShaderStage.fragment,
          GLEvent.linkProgram, GLEvent.deleteShader ShaderStage.vertex,
          GLEvent.deleteShader ShaderStage.fragment]))
    ∧ (env.compileStatus ShaderStage.vertex = false →
        Shader.new env v f =
          (Except.error
            ("failed to compile vertex shader " ++ v ++ ": " ++ "failed to compile GLSL code"),
           [GLEvent.compileShader ShaderStage.vertex]))
    ∧ (env.compileStatus ShaderStage.vertex = true →
        env.compileStatus ShaderStage.fragment = false →
        Shader.new env v f =
          (Except.error
            ("failed to compile fragment shader " ++ f ++ ": " ++ "failed to compile GLSL code"),
           [GLEvent.compileShader ShaderStage.vertex, GLEvent.compileShader ShaderStage.fragment]))
    ∧ (env.compileStatus ShaderStage.vertex = true →
        env.compileStatus ShaderStage.fragment = true →
        env.linkStatus = false →
        Shader.new env v f =
          (Except.error "failed to link shader program",
           [GLEvent.compileShader ShaderStage.vertex, GLEvent.compileShader ShaderStage.fragment,
            GLEvent.linkProgram, GLEvent.deleteShader ShaderStage.vertex,
            GLEvent.deleteShader ShaderStage.fragment])) := by
  refine ⟨?_, ?_, ?_, ?_⟩
  · intro hcv hcf hl
    simp [Shader.new, compile, hv, hf, hcv, hcf, hl]
  · intro hcv
    simp [Shader.new, compile, hv, hcv]
  · intro hcv hcf
    simp [Shader.new, compile, hv, hf, hcv, hcf]
  · intro hcv hcf hl
    simp [Shader.new, compile, hv, hf, hcv, hcf, hl]

/-- Environment where reads, both compiles, and the link all succeed. -/
def okShaderEnv : GLShaderEnv :=
  { readSource := fun _ => Except.ok "#version 430 core",
    compileStatus := fun _ => true,
    compileLog := fun _ => "",
    linkStatus := true,
    linkLog := "" }

theorem shader_new_sequence_witness :
    Shader.new okShaderEnv "model.vert" "model.frag" =
      (Except.ok { shader_program := 1, subroutine_indices := [] },
       [GLEvent.compileShader ShaderStage.vertex, GLEvent.compileShader ShaderStage.fragment,
        GLEvent.linkProgram, GLEvent.deleteShader ShaderStage.vertex,
        GLEvent.deleteShader ShaderStage.fragment]) :=
  (shader_new_sequence okShaderEnv "model.vert" "model.frag"
    "#version 430 core" "#version 430 core" rfl rfl).1 rfl rfl rfl

/-! ### Camera rotation invariants -/

theorem wrap_yaw_mem (yaw : ℝ) : 0 ≤ wrap_yaw yaw ∧ wrap_yaw yaw ≤ 359 := by
  unfold wrap_yaw
  split_ifs with h1 h2 <;> constructor <;> linarith

theorem rustClamp_mem (x lo hi : ℝ) (h : lo ≤ hi) :
    lo ≤ rustClamp x lo hi ∧ rustClamp x lo hi ≤ hi := by
  unfold rustClamp
  split_ifs with h1 h2 <;> constructor <;> linarith

theorem look_rotation (c : Camera) (x y : ℝ) :
    (c.look x y).rotation =
      ⟨wrap_yaw (c.rotation.x + x * LOOK_SENSITIVITY),
       rustClamp (c.rotation.y + y * LOOK_SENSITIVITY) (-89) 89⟩ := rfl

theorem look_position (c : Camera) (x y : ℝ) : (c.look x y).position = c.position := rfl

/-- The initial camera constructed in `App::new` (src/app.rs): position
(1.7, 1.3, 4.0), yaw 240°, pitch −15°. -/
noncomputable def app_initial_camera : Camera :=
  Camera.new ⟨1.7, 1.3, 4.0⟩ ⟨240, -15⟩

theorem app_initial_camera_rotation : app_initial_camera.rotation = ⟨240, -15⟩ := rfl

/-- C2: from any starting yaw in [0, 360), every finite sequence of
`look(x, 0)` calls — with arbitrary, including negative, offsets — leaves the
resulting yaw inside [0, 360). -/
theorem yaw_wrap_invariant (c : Camera) (h0 : 0 ≤ c.rotation.x) (h1 : c.rotation.x < 360)
    (offsets : List ℝ) :
    0 ≤ (lookFoldX c offsets).rotation.x ∧ (lookFoldX c offsets).rotation.x < 360 := by
  induction offsets generalizing c with
  | nil => exact ⟨h0, h1⟩
  | cons o rest ih =>
    have hmem := wrap_yaw_mem (c.rotation.x + o * LOOK_SENSITIVITY)
    have hx : (c.look o 0).rotation.x = wrap_yaw (c.rotation.x + o * LOOK_SENSITIVITY) := rfl
    have hfold : lookFoldX c (o :: rest) = lookFoldX (c.look o 0) rest := rfl
    rw [hfold]
    exact ih (c.look o 0) (hx ▸ hmem.1) (hx ▸ lt_of_le_of_lt hmem.2 (by norm_num))

theorem yaw_wrap_invariant_witness :
    0 ≤ (lookFoldX app_initial_camera [30, -4000, 1200.5]).rotation.x
    ∧ (lookFoldX app_initial_camera [30, -4000, 1200.5]).rotation.x < 360 :=
  yaw_wrap_invariant app_initial_camera
    (by rw [app_initial_camera_rotation]; norm_num)
    (by rw [app_initial_camera_rotation]; norm_num)
    [30, -4000, 1200.5]

/-- Helper for C3: once the pitch is inside the clamp range, any further
sequence of `look(0, y)` calls keeps it there. -/
theorem pitch_fold_preserves (offsets : List ℝ) :
    ∀ c : Camera, -89 ≤ c.rotation.y → c.rotation.y ≤ 89 →
      -89 ≤ (lookFoldY c offsets).rotation.y ∧ (lookFoldY c offsets).rotation.y ≤ 89 := by
  induction offsets with
  | nil => exact fun c h0 h1 => ⟨h0, h1⟩
  | cons o rest ih =>
    intro c h0 h1
    have hmem := rustClamp_mem (c.rotation.y + o * LOOK_SENSITIVITY) (-89) 89 (by norm_num)
    have hy : (c.look 0 o).rotation.y
        = rustClamp (c.rotation.y + o * LOOK_SENSITIVITY) (-89) 89 := rfl
    have hfold : lookFoldY c (o :: rest) = lookFoldY (c.look 0 o) rest := rfl
    rw [hfold]
    exact ih (c.look 0 o) (hy ▸ hmem.1) (hy ▸ hmem.2)

/-- C3: after any non-empty sequence of `look(0, y)` calls the pitch lies in
[−89, 89] whatever the starting pitch and the cumulative offset, and once a
bound is reached, further offsets pushing in the same direction leave the pitch
exactly at that bound. -/
theorem pitch_clamp_invariant (c : Camera) (offsets : List ℝ) (hne : offsets ≠ []) :
    (-89 ≤ (lookFoldY c offsets).rotation.y ∧ (lookFoldY c offsets).rotation.y ≤ 89)
    ∧ (∀ y : ℝ, c.rotation.y = 89 → 0 ≤ y → (c.look 0 y).rotation.y = 89)
    ∧ (∀ y : ℝ, c.rotation.y = -89 → y ≤ 0 → (c.look 0 y).rotation.y = -89) := by
  refine ⟨?_, ?_, ?_⟩
  · match offsets, hne with
    | o :: rest, _ =>
      have hmem := rustClamp_mem (c.rotation.y + o * LOOK_SENSITIVITY) (-89) 89 (by norm_num)
      have hy : (c.look 0 o).rotation.y
          = rustClamp (c.rotation.y + o * LOOK_SENSITIVITY) (-89) 89 := rfl
      have hfold : lookFoldY c (o :: rest) = lookFoldY (c.look 0 o) rest := rfl
      rw [hfold]
      exact pitch_fold_preserves rest (c.look 0 o) (hy ▸ hmem.1) (hy ▸ hmem.2)
  · intro y htop hy
    have hsens : 0 ≤ y * LOOK_SENSITIVITY := by
      have : (0 : ℝ) ≤ LOOK_SENSITIVITY := by norm_num [LOOK_SENSITIVITY]
      exact mul_nonneg hy this
    have : (c.look 0 y).rotation.y
        = rustClamp (c.rotation.y + y * LOOK_SENSITIVITY) (-89) 89 := rfl
    rw [this, htop]
    unfold rustClamp
    split_ifs <;> linarith
  · intro y hbot hy
    have hsens : y * LOOK_SENSITIVITY ≤ 0 := by
      have : (0 : ℝ) ≤ LOOK_SENSITIVITY := by norm_num [LOOK_SENSITIVITY]
      exact mul_nonpos_of_nonpos_of_nonneg hy this
    have : (c.look 0 y).rotation.y
        = rustClamp (c.rotation.y + y * LOOK_SENSITIVITY) (-89) 89 := rfl
    rw [this, hbot]
    unfold rustClamp
    split_ifs <;> linarith

theorem pitch_clamp_invariant_witness :
    (-89 ≤ (lookFoldY app_initial_camera [-100000, 3]).rotation.y
      ∧ (lookFoldY app_initial_camera [-100000, 3]).rotation.y ≤ 89)
    ∧ (∀ y : ℝ, app_initial_camera.rotation.y = 89 → 0 ≤ y →
        (app_initial_camera.look 0 y).rotation.y = 89)
    ∧ (∀ y : ℝ, app_initial_camera.rotation.y = -89 → y ≤ 0 →
        (app_initial_camera.look 0 y).rotation.y = -89) :=
  pitch_clamp_invariant app_initial_camera [-100000, 3] (List.cons_ne_nil _ _)

/-- C5: the stored direction is never stale with respect to rotation — right
after construction and right after every `look` call (the only rotation
mutation) it equals the normalized spherical-to-Cartesian conversion of the
current rotation. -/
theorem direction_never_stale :
    (∀ (p : Vec3) (r : Vec2),
      (Camera.new p r).direction = (sphericalDirection (Camera.new p r).rotation).normalize)
    ∧ (∀ (c : Camera) (x y : ℝ),
        (c.look x y).direction = (sphericalDirection (c.look x y).rotation).normalize)
    ∧ (∀ r : Vec2, sphericalDirection r =
        ⟨Real.cos (toRadians r.x) * Real.cos (toRadians r.y),
         Real.sin (toRadians r.y),
         Real.sin (toRadians r.x) * Real.cos (toRadians r.y)⟩) :=
  ⟨fun _ _ => rfl, fun _ _ _ => rfl, fun _ => rfl⟩

/-- A camera whose yaw 359.5° lies inside [0, 360) — the wrap range stated by
the spec — with pitch 0 and an up-to-date direction. -/
noncomputable def wrapEdgeCam : Camera :=
  { position := ⟨0, 0, 0⟩,
    rotation := ⟨359.5, 0⟩,
    direction := (sphericalDirection ⟨359.5, 0⟩).normalize }

/-- C6 counterexample: `wrapEdgeCam` has yaw inside [0, 360) and pitch inside
[−89, 89], yet `look(0, 0)` resets its yaw from 359.5 to 0 because `wrap_yaw`
sends every value above 359 to 0 — so `look(0,0)` is not a rotation no-op on
all of [0, 360). -/
theorem look_zero_changes_yaw :
    (0 ≤ wrapEdgeCam.rotation.x ∧ wrapEdgeCam.rotation.x < 360
      ∧ -89 ≤ wrapEdgeCam.rotation.y ∧ wrapEdgeCam.rotation.y ≤ 89)
    ∧ (wrapEdgeCam.look 0 0).rotation.x = 0
    ∧ wrapEdgeCam.rotation.x ≠ 0 := by
  refine ⟨by norm_num [wrapEdgeCam], ?_, by norm_num [wrapEdgeCam]⟩
  have : (wrapEdgeCam.look 0 0).rotation.x
      = wrap_yaw (wrapEdgeCam.rotation.x + 0 * LOOK_SENSITIVITY) := rfl
  rw [this]
  norm_num [wrapEdgeCam, wrap_yaw]

/-- C6 amended: for every camera whose yaw lies in [0, 359] — the exact range
`wrap_yaw` produces — whose pitch lies in [−89, 89], and whose direction is in
sync with its rotation, `look(0, 0)` leaves the whole camera (rotation and
direction) unchanged. -/
theorem look_zero_identity (c : Camera)
    (h0 : 0 ≤ c.rotation.x) (h1 : c.rotation.x ≤ 359)
    (h2 : -89 ≤ c.rotation.y) (h3 : c.rotation.y ≤ 89)
    (hdir : c.direction = (sphericalDirection c.rotation).normalize) :
    c.look 0 0 = c := by
  have hx : wrap_yaw (c.rotation.x + 0 * LOOK_SENSITIVITY) = c.rotation.x := by
    rw [zero_mul, add_zero]
    unfold wrap_yaw
    split_ifs <;> linarith
  have hy : rustClamp (c.rotation.y + 0 * LOOK_SENSITIVITY) (-89) 89 = c.rotation.y := by
    rw [zero_mul, add_zero]
    unfold rustClamp
    split_ifs <;> linarith
  have hrot : (⟨wrap_yaw (c.rotation.x + 0 * LOOK_SENSITIVITY),
      rustClamp (c.rotation.y + 0 * LOOK_SENSITIVITY) (-89) 89⟩ : Vec2) = c.rotation :=
    Vec2.ext hx hy
  show Camera.mk c.position
      ⟨wrap_yaw (c.rotation.x + 0 * LOOK_SENSITIVITY),
       rustClamp (c.rotation.y + 0 * LOOK_SENSITIVITY) (-89) 89⟩
      ((sphericalDirection
        ⟨wrap_yaw (c.rotation.x + 0 * LOOK_SENSITIVITY),
         rustClamp (c.rotation.y + 0 * LOOK_SENSITIVITY) (-89) 89⟩).normalize) = c
  rw [hrot, ← hdir]

theorem look_zero_identity_witness :
    app_initial_camera.look 0 0 = app_initial_camera :=
  look_zero_identity app_initial_camera
    (by rw [app_initial_camera_rotation]; norm_num)
    (by rw [app_initial_camera_rotation]; norm_num)
    (by rw [app_initial_camera_rotation]; norm_num)
    (by rw [app_initial_camera_rotation]; norm_num)
    rfl

/-! ### Strafe algebra -/

noncomputable instance : Zero Vec3 := ⟨⟨0, 0, 0⟩⟩

theorem Vec3.zero_def : (0 : Vec3) = ⟨0, 0, 0⟩ := rfl

theorem Vec3.magnitude_smul (k : ℝ) (v : Vec3) : (k • v).magnitude = |k| * v.magnitude := by
  unfold Vec3.magnitude
  rw [Vec3.smul_def]
  have h : k * v.x * (k * v.x) + k * v.y * (k * v.y) + k * v.z * (k * v.z)
      = k ^ 2 * (v.x * v.x + v.y * v.y + v.z * v.z) := by ring
  rw [h, Real.sqrt_mul (sq_nonneg k), Real.sqrt_sq_eq_abs]

theorem Vec3.magnitude_pos (v : Vec3) (hv : v ≠ 0) : 0 < v.magnitude := by
  unfold Vec3.magnitude
  apply Real.sqrt_pos.mpr
  have hnn : (0 : ℝ) ≤ v.x * v.x + v.y * v.y + v.z * v.z := by
    nlinarith [mul_self_nonneg v.x, mul_self_nonneg v.y, mul_self_nonneg v.z]
  rcases lt_or_eq_of_le hnn with h | h
  · exact h
  exfalso
  apply hv
  have hx : v.x = 0 := by nlinarith [mul_self_nonneg v.x, mul_self_nonneg v.y, mul_self_nonneg v.z]
  have hy : v.y = 0 := by nlinarith [mul_self_nonneg v.x, mul_self_nonneg v.y, mul_self_nonneg v.z]
  have hz : v.z = 0 := by nlinarith [mul_self_nonneg v.x, mul_self_nonneg v.y, mul_self_nonneg v.z]
  rw [Vec3.zero_def]
  exact Vec3.ext hx hy hz

theorem Vec3.magnitude_normalize (v : Vec3) (hv : v ≠ 0) : v.normalize.magnitude = 1 := by
  have hpos := Vec3.magnitude_pos v hv
  unfold Vec3.normalize
  rw [Vec3.magnitude_smul, abs_of_pos (one_div_pos.mpr hpos), one_div,
    inv_mul_cancel₀ (ne_of_gt hpos)]

/-- C4: for a camera with a non-zero direction, strafing left then right with
the same elapsed time restores the exact pre-call position; and whenever the
direction is not parallel to world up (true in particular for a purely
horizontal direction and a 45°-tilted one), the magnitude of a single strafe
displacement is `MOVEMENT_SPEED · dt` — so, direction being normalized, the
displacement magnitude is independent of the direction's pitch. -/
theorem strafe_inverse_and_normalized (c : Camera) (dt : ℝ) (hdir : c.direction ≠ 0) :
    ((c.strafe_left dt).strafe_right dt).position = c.position
    ∧ (c.direction.cross UP_VECTOR ≠ 0 → 0 ≤ dt →
        ((c.strafe_left dt).position - c.position).magnitude = MOVEMENT_SPEED * dt)
    ∧ (∀ c' : Camera, c.direction.cross UP_VECTOR ≠ 0 → c'.direction.cross UP_VECTOR ≠ 0 →
        0 ≤ dt →
        ((c.strafe_left dt).position - c.position).magnitude
          = ((c'.strafe_left dt).position - c'.position).magnitude) := by
  have hdisp : ∀ cam : Camera, cam.direction.cross UP_VECTOR ≠ 0 → 0 ≤ dt →
      ((cam.strafe_left dt).position - cam.position).magnitude = MOVEMENT_SPEED * dt := by
    intro cam hcross hdt
    have hΔ : (cam.strafe_left dt).position - cam.position
        = (-(MOVEMENT_SPEED * dt)) • (cam.direction.cross UP_VECTOR).normalize := by
      unfold Camera.strafe_left
      rw [Vec3.sub_def]
      ext <;> simp [Vec3.sub_def, Vec3.smul_def]
    rw [hΔ, Vec3.magnitude_smul, Vec3.magnitude_normalize _ hcross, mul_one, abs_neg,
      abs_of_nonneg (mul_nonneg (by norm_num [MOVEMENT_SPEED]) hdt)]
  refine ⟨?_, hdisp c, ?_⟩
  · unfold Camera.strafe_left Camera.strafe_right
    ext <;> simp [Vec3.add_def, Vec3.sub_def, Vec3.smul_def]
  · intro c' hc hc' hdt
    rw [hdisp c hc hdt, hdisp c' hc' hdt]

/-- A camera looking purely horizontally (direction (0, 0, 1), pitch 0). -/
noncomputable def horizCam : Camera :=
  { position := ⟨0, 0, 0⟩, rotation := ⟨90, 0⟩, direction := ⟨0, 0, 1⟩ }

/-- A camera whose direction (0, 1, 1) is tilted 45° upward from horizontal. -/
noncomputable def tiltCam : Camera :=
  { position := ⟨0, 0, 0⟩, rotation := ⟨90, 45⟩, direction := ⟨0, 1, 1⟩ }

theorem strafe_inverse_and_normalized_witness :
    ((horizCam.strafe_left 1).strafe_right 1).position = horizCam.position
    ∧ ((horizCam.strafe_left 1).position - horizCam.position).magnitude
        = ((tiltCam.strafe_left 1).position - tiltCam.position).magnitude :=
  ⟨(strafe_inverse_and_normalized horizCam 1
      (by simp [horizCam, Vec3.zero_def, Vec3.ext_iff])).1,
   (strafe_inverse_and_normalized horizCam 1
      (by simp [horizCam, Vec3.zero_def, Vec3.ext_iff])).2.2 tiltCam
      (by simp [horizCam, UP_VECTOR, Vec3.cross, Vec3.zero_def, Vec3.ext_iff])
      (by simp [tiltCam, UP_VECTOR, Vec3.cross, Vec3.zero_def, Vec3.ext_iff])
      (by norm_num)⟩

/-! ### Fixed-timestep loop -/

theorem fixed_update_timestep_pos : 0 < FIXED_UPDATE_TIMESTEP := by
  norm_num [FIXED_UPDATE_TIMESTEP, MAX_LOGIC_UPDATE_PER_SECOND]

theorem update_forwardOnly (c : Camera) :
    App.update forwardOnlyInput c = c.move_forward FIXED_UPDATE_TIMESTEP := rfl

theorem updateIter_forwardOnly (N : Nat) : ∀ c : Camera,
    (App.updateIter forwardOnlyInput N c).position
      = c.position + ((N : ℝ) * (MOVEMENT_SPEED * FIXED_UPDATE_TIMESTEP)) • c.direction
    ∧ (App.updateIter forwardOnlyInput N c).direction = c.direction := by
  induction N with
  | zero =>
    intro c
    refine ⟨?_, rfl⟩
    ext <;> simp [App.updateIter, Vec3.add_def, Vec3.smul_def]
  | succ n ih =>
    intro c
    have hstep : App.updateIter forwardOnlyInput (n + 1) c
        = App.updateIter forwardOnlyInput n (c.move_forward FIXED_UPDATE_TIMESTEP) := rfl
    obtain ⟨hpos, hdir⟩ := ih (c.move_forward FIXED_UPDATE_TIMESTEP)
    rw [hstep]
    refine ⟨?_, by rw [hdir]; rfl⟩
    rw [hpos]
    push_cast
    ext <;> simp [Camera.move_forward, Vec3.add_def, Vec3.smul_def] <;> ring

theorem loop_runs_exactly (r : ℝ) (h0 : 0 ≤ r) (h1 : r < FIXED_UPDATE_TIMESTEP) (N : Nat) :
    ∀ c : Camera,
      FixedUpdateLoop forwardOnlyInput ((N : ℝ) * FIXED_UPDATE_TIMESTEP + r) c N r
        (App.updateIter forwardOnlyInput N c) := by
  induction N with
  | zero =>
    intro c
    have hlag : ((0 : Nat) : ℝ) * FIXED_UPDATE_TIMESTEP + r = r := by push_cast; ring
    rw [hlag]
    exact FixedUpdateLoop.done r c h1
  | succ n ih =>
    intro c
    apply FixedUpdateLoop.step
    · have hts := fixed_update_timestep_pos
      have hn : (0 : ℝ) ≤ (n : ℝ) := Nat.cast_nonneg n
      push_cast
      nlinarith
    · have harith : ((n + 1 : Nat) : ℝ) * FIXED_UPDATE_TIMESTEP + r - FIXED_UPDATE_TIMESTEP
          = (n : ℝ) * FIXED_UPDATE_TIMESTEP + r := by push_cast; ring
      rw [harith]
      exact ih (App.update forwardOnlyInput c)

theorem loop_deterministic {input : InputState} :
    ∀ {lag : ℝ} {c : Camera} {n1 : Nat} {lag1 : ℝ} {c1 : Camera},
      FixedUpdateLoop input lag c n1 lag1 c1 →
      ∀ {n2 : Nat} {lag2 : ℝ} {c2 : Camera},
        FixedUpdateLoop input lag c n2 lag2 c2 →
        n1 = n2 ∧ lag1 = lag2 ∧ c1 = c2 := by
  intro lag c n1 lag1 c1 h1
  induction h1 with
  | done lag c hlt =>
    intro n2 lag2 c2 h2
    cases h2 with
    | done => exact ⟨rfl, rfl, rfl⟩
    | step _ _ _ _ _ hle _ => exact absurd hle (not_le.mpr hlt)
  | step lag c n lag' c' hle hrec ih =>
    intro n2 lag2 c2 h2
    cases h2 with
    | done _ _ hlt => exact absurd hle (not_le.mpr hlt)
    | step _ _ m _ _ _ hrec2 =>
      obtain ⟨hn, hl, hc⟩ := ih hrec2
      exact ⟨by rw [hn], hl, hc⟩

/-- C1: with accumulated lag `N · timestep + r` (remainder `r` below the
timestep) and only the forward-movement key held, the lag-draining loop of
`App::run` performs exactly `N` logic update steps — one per subtraction of the
timestep — exits with accumulator `r`, every run of the loop from that state
takes exactly those `N` steps, and the resulting camera position is
`initialPosition + N · (MOVEMENT_SPEED · timestep) · initialDirection` with the
direction unchanged. -/
theorem fixed_timestep_forward_movement (c : Camera) (N : Nat) (r : ℝ)
    (h0 : 0 ≤ r) (h1 : r < FIXED_UPDATE_TIMESTEP) :
    FixedUpdateLoop forwardOnlyInput ((N : ℝ) * FIXED_UPDATE_TIMESTEP + r) c N r
      (App.updateIter forwardOnlyInput N c)
    ∧ (∀ (n : Nat) (lag' : ℝ) (c' : Camera),
        FixedUpdateLoop forwardOnlyInput ((N : ℝ) * FIXED_UPDATE_TIMESTEP + r) c n lag' c' →
        n = N ∧ lag' = r ∧ c' = App.updateIter forwardOnlyInput N c)
    ∧ (App.updateIter forwardOnlyInput N c).position
        = c.position + ((N : ℝ) * (MOVEMENT_SPEED * FIXED_UPDATE_TIMESTEP)) • c.direction
    ∧ (App.updateIter forwardOnlyInput N c).direction = c.direction := by
  have hrun := loop_runs_exactly r h0 h1 N c
  refine ⟨hrun, ?_, (updateIter_forwardOnly N c).1, (updateIter_forwardOnly N c).2⟩
  intro n lag' c' h
  exact loop_deterministic h hrun

theorem fixed_timestep_forward_movement_witness :
    FixedUpdateLoop forwardOnlyInput ((2 : Nat) * FIXED_UPDATE_TIMESTEP + 0) app_initial_camera
      2 0 (App.updateIter forwardOnlyInput 2 app_initial_camera)
    ∧ (App.updateIter forwardOnlyInput 2 app_initial_camera).position
        = app_initial_camera.position
          + (((2 : Nat) : ℝ) * (MOVEMENT_SPEED * FIXED_UPDATE_TIMESTEP))
              • app_initial_camera.direction :=
  ⟨(fixed_timestep_forward_movement app_initial_camera 2 0 le_rfl
      fixed_update_timestep_pos).1,
   (fixed_timestep_forward_movement app_initial_camera 2 0 le_rfl
      fixed_update_timestep_pos).2.2.1⟩

/-! ### Model matrix -/

/-- C7: a model rotation of [0, 0, 0] degrees, composed through per-axis Euler
quaternions, yields the identity model matrix. -/
theorem model_matrix_zero_rotation_identity :
    calculate_model_matrix 0 0 0 = Mat4.identity := by
  simp only [calculate_model_matrix, quatFromEulerDeg, mat4FromQuat, toRadians, Mat4.identity]
  norm_num

end Renderer3D
